import Mathlib

/-!
Verification of the coloring-book generator front end (src/index.tsx).

The source is a single TypeScript file that drives an image-generation
service to assemble a coloring book (one cover plus N-1 line-art pages),
renders the results into a gallery, and exports them as a PDF document or
individual files.  We embed the relevant state and operations shallowly:

* DOM state (loading flag, button, spinner, gallery contents, error text,
  download controls) becomes the record `AppState`.
* The image service is an oracle `Service : Nat → Except String (List String)`
  indexed by call number (call 0 is the cover call, call 1+t the t-th batch
  call); `Except.error` models a thrown exception, `Except.ok l` a resolved
  response whose `generatedImages` list is `l` (an absent list is `ok []`).
* `generateColoringBook` mirrors the orchestration routine, returning the
  final state together with the trace of image requests it issued.
* `downloadAsPdf` mirrors the PDF export against a document model built
  from the jsPDF operations used (addPage / addImage / save).
-/

/-- One rendered gallery entry; `downloadName` is the per-page filename the
code attaches to the page's download link. -/
structure GeneratedPage where
  index : Nat
  imageUrl : String
  isCover : Bool
  downloadName : String
deriving DecidableEq, Inhabited

/-- The DOM state the script reads and writes. -/
structure AppState where
  themeInputValue : String
  pagesInputValue : String
  isLoading : Bool
  generateBtnDisabled : Bool
  spinnerHidden : Bool
  btnText : String
  gallery : List GeneratedPage
  galleryPlaceholderHidden : Bool
  errorHidden : Bool
  errorText : String
  downloadControlsHidden : Bool
deriving DecidableEq

/-- The image service, as an oracle indexed by call number.  `Except.error`
is a rejected promise; `Except.ok l` is a response with image list `l`. -/
def Service : Type := Nat → Except String (List String)

/-- One request to `ai.models.generateImages`. -/
structure ImageRequest where
  model : String
  prompt : String
  numberOfImages : Nat
  outputMimeType : String
  aspectRatio : String
deriving DecidableEq

/-- Collapse each maximal run of whitespace to a single underscore,
tracking whether the previous character was whitespace: the model of
JavaScript `.replace(/\s+/g, '_')`. -/
def replWsAux : Bool → List Char → List Char
  | _, [] => []
  | prevWs, c :: cs =>
    if c.isWhitespace then
      (if prevWs then [] else ['_']) ++ replWsAux true cs
    else c :: replWsAux false cs

/-- JavaScript `String.prototype.trim` on a character list: drop leading and
trailing whitespace. -/
def jsTrimList (l : List Char) : List Char :=
  (((l.dropWhile Char.isWhitespace).reverse).dropWhile Char.isWhitespace).reverse

/-- JavaScript `s.trim()`. -/
def jsTrimStr (s : String) : String :=
  String.mk (jsTrimList s.data)

/-- `themeInput.value.trim().replace(/\s+/g, '_')`: the filename
sanitization applied to the theme (src/index.tsx lines 60 and 162). -/
def sanitize (s : String) : String :=
  String.mk (replWsAux false (jsTrimList s.data))

/-- `parseInt(s, 10)`: skip leading whitespace, optional sign, then the
longest leading digit run; `none` models `NaN`. -/
def jsParseInt (s : String) : Option Int :=
  let l := s.data.dropWhile Char.isWhitespace
  let sgn : Int := match l with
    | '-' :: _ => -1
    | _ => 1
  let l2 : List Char := match l with
    | '-' :: rest => rest
    | '+' :: rest => rest
    | _ => l
  let ds := l2.takeWhile Char.isDigit
  if ds.isEmpty then none
  else some (sgn * (ds.foldl (fun acc c => acc * 10 + (c.toNat - 48)) 0 : Nat))

/-- The cover prompt (template literal at src/index.tsx line 78). -/
def coverPrompt (theme : String) : String :=
  "A vibrant and colorful 3D book cover for a children's coloring book. The title is \"" ++
    theme ++ " Coloring Book\". The style is playful, friendly, and appealing to kids aged 3-10."

/-- The coloring-page prompt (template literal at src/index.tsx line 100). -/
def coloringPagePrompt (theme : String) : String :=
  "A black and white coloring book page for a child, thick clean lines, no shading or color. The theme is \"" ++
    theme ++ "\". The page features a fun, friendly, and appealing design with a simple background."

/-- The single cover request: one image, jpeg, 3:4. -/
def coverRequest (theme : String) : ImageRequest :=
  { model := "imagen-3.0-generate-002", prompt := coverPrompt theme,
    numberOfImages := 1, outputMimeType := "image/jpeg", aspectRatio := "3:4" }

/-- One batch request for `n` coloring pages. -/
def batchRequest (theme : String) (n : Nat) : ImageRequest :=
  { model := "imagen-3.0-generate-002", prompt := coloringPagePrompt theme,
    numberOfImages := n, outputMimeType := "image/jpeg", aspectRatio := "3:4" }

/-- The data-URL wrapper put around returned base64 bytes. -/
def mkImageUrl (base64Bytes : String) : String :=
  "data:image/jpeg;base64," ++ base64Bytes

/-- Per-page download filename (src/index.tsx line 60). -/
def pageDownloadName (themeValue : String) (index : Nat) (isCover : Bool) : String :=
  sanitize themeValue ++ "_" ++ (if isCover then "cover" else "page_" ++ toString index) ++ ".jpg"

/-- `setLoading(loading, message)` (src/index.tsx lines 25-33): sets the flag,
disables the button, toggles the spinner, and shows `message` while loading,
resetting the label to `Create Book` otherwise. -/
def setLoading (loading : Bool) (message : String) (s : AppState) : AppState :=
  { s with isLoading := loading, generateBtnDisabled := loading,
           spinnerHidden := !loading,
           btnText := if loading then message else "Create Book" }

/-- `displayError` (src/index.tsx lines 35-39). -/
def displayError (message : String) (s : AppState) : AppState :=
  { s with errorText := message, errorHidden := false, galleryPlaceholderHidden := true }

/-- `clearGallery` (src/index.tsx lines 41-45). -/
def clearGallery (s : AppState) : AppState :=
  { s with gallery := [], errorHidden := true, downloadControlsHidden := true }

/-- `displayImage` (src/index.tsx lines 47-68): appends one page to the
gallery; the download filename is derived from the current theme input.
The alt text and the inline SVG of the download icon are presentational
and not modelled. -/
def displayImage (imageUrl : String) (index : Nat) (isCover : Bool) (s : AppState) : AppState :=
  { s with gallery := s.gallery ++
      [{ index := index, imageUrl := imageUrl, isCover := isCover,
         downloadName := pageDownloadName s.themeInputValue index isCover }] }

/-- The page record `displayImage` appends for a non-cover image with
base64 payload `img` at page index `idx`, given theme input `tv`. -/
def mkPage (tv : String) (idx : Nat) (img : String) : GeneratedPage :=
  { index := idx, imageUrl := mkImageUrl img, isCover := false,
    downloadName := pageDownloadName tv idx false }

/-- Progress label shown for the batch starting at offset `i`. -/
def progressMessage (i size : Nat) : String :=
  "Creating pages " ++ toString (i + 1) ++ "-" ++ toString (i + size) ++ "..."

/-- Error thrown when a batch response has no images (src/index.tsx line 124). -/
def batchFailMessage (i : Nat) : String :=
  "Failed to generate pages in batch starting at index " ++ toString i ++ "."

/-- Error thrown when the cover response has no images (src/index.tsx line 94). -/
def coverFailMessage : String := "Failed to generate the book cover."

/-- The generic user-facing error (src/index.tsx line 132). -/
def genericError : String :=
  "An error occurred while creating your coloring book. Please check the console for details and try again."

/-- The batch loop of `generateColoringBook` (src/index.tsx lines 102-126):
`for (let i = 0; i < pagesToGenerate; i += 4)`.  Returns the state, the
thrown error if any (`none` on normal exit), and the batch requests issued.
`callIdx` numbers the service calls (the cover call was call 0). -/
def batchLoop (theme : String) (pagesToGenerate i callIdx : Nat)
    (svc : Service) (s : AppState) :
    AppState × Option String × List ImageRequest :=
  if _h : i < pagesToGenerate then
    let currentBatchSize := min 4 (pagesToGenerate - i)
    let s1 := setLoading true (progressMessage i currentBatchSize) s
    let req := batchRequest theme currentBatchSize
    match svc callIdx with
    | Except.error e => (s1, some e, [req])
    | Except.ok imgs =>
      if imgs.length > 0 then
        let s2 := imgs.enum.foldl
          (fun acc x => displayImage (mkImageUrl x.2) (i + x.1 + 1) false acc) s1
        let r := batchLoop theme pagesToGenerate (i + 4) (callIdx + 1) svc s2
        (r.1, r.2.1, req :: r.2.2)
      else (s1, some (batchFailMessage i), [req])
  else (s, none, [])
termination_by pagesToGenerate - i
decreasing_by omega

/-- `generateColoringBook` (src/index.tsx lines 70-136): cover call, batch
loop, unhide download controls on success; catch displays the generic
error; finally clears the busy state.  Returns the final state and the
full trace of image requests issued. -/
def generateColoringBook (theme : String) (numPages : Nat) (svc : Service)
    (s0 : AppState) : AppState × List ImageRequest :=
  let sA := setLoading true "Starting..." s0
  let sB := clearGallery sA
  let sC := { sB with galleryPlaceholderHidden := true }
  let sD := setLoading true "Creating cover..." sC
  let tryResult : AppState × Option String × List ImageRequest :=
    match svc 0 with
    | Except.error e => (sD, some e, [coverRequest theme])
    | Except.ok imgs =>
      if imgs.length > 0 then
        let sE := displayImage (mkImageUrl imgs.headI) 0 true sD
        let r := batchLoop theme (numPages - 1) 0 1 svc sE
        match r.2.1 with
        | some e => (r.1, some e, coverRequest theme :: r.2.2)
        | none => ({ r.1 with downloadControlsHidden := false }, none,
                   coverRequest theme :: r.2.2)
      else (sD, some coverFailMessage, [coverRequest theme])
  let sF := match tryResult.2.1 with
    | some _ => displayError genericError tryResult.1
    | none => tryResult.1
  (setLoading false "Create Book" sF, tryResult.2.2)

/-- The validation message of the submit listener (src/index.tsx line 185). -/
def validationMessage : String := "Please enter a valid theme and number of pages."

/-- The form submit listener (src/index.tsx lines 175-187): no-op while
loading; otherwise trim the theme, parse the page count, and either start a
run or display the validation error.  Returns the resulting state and the
image requests issued. -/
def handleSubmit (svc : Service) (s : AppState) : AppState × List ImageRequest :=
  if s.isLoading then (s, [])
  else
    let theme := jsTrimStr s.themeInputValue
    match jsParseInt s.pagesInputValue with
    | some k =>
      if theme ≠ "" ∧ 0 < k then generateColoringBook theme k.toNat svc s
      else (displayError validationMessage s, [])
    | none => (displayError validationMessage s, [])

/-- One `doc.addImage(src, 'JPEG', x, y, w, h, ...)` placement; jsPDF with
a4/portrait/mm has page width 210 and height 297, so the code's margins
and sizes are in millimetres. -/
structure PdfPlacement where
  src : String
  x : Nat
  y : Nat
  w : Nat
  h : Nat
deriving DecidableEq

/-- The jsPDF document model: the ordered pages, each the ordered list of
image placements on it.  A new document starts with one empty page. -/
structure PdfDoc where
  pages : List (List PdfPlacement)
deriving DecidableEq

/-- `doc.addPage()`: appends a fresh page. -/
def addPage (d : PdfDoc) : PdfDoc :=
  { pages := d.pages ++ [[]] }

/-- `doc.addImage(...)`: places an image on the current (last) page. -/
def addImage (pl : PdfPlacement) (d : PdfDoc) : PdfDoc :=
  { pages := d.pages.dropLast ++ [(d.pages.getLast?.getD []) ++ [pl]] }

/-- a4 portrait page width in mm (jsPDF). -/
def a4WidthMm : Nat := 210

/-- a4 portrait page height in mm (jsPDF). -/
def a4HeightMm : Nat := 297

/-- `downloadAsPdf` (src/index.tsx lines 138-163): collect the non-cover
gallery images in document order; if there are none, return without
creating a document; otherwise place each image at the 10mm margin with
fixed width/height (stretch-to-fit) — first image on the initial page,
every later image after an `addPage` — and save under the sanitized theme
name. -/
def downloadAsPdf (s : AppState) : Option (PdfDoc × String) :=
  let coloringPages := (s.gallery.filter (fun p => !p.isCover)).map GeneratedPage.imageUrl
  if coloringPages.length = 0 then none
  else
    let doc : PdfDoc := { pages := [[]] }
    let pageWidth := a4WidthMm
    let pageHeight := a4HeightMm
    let margin := 10
    let imgWidth := pageWidth - margin * 2
    let imgHeight := pageHeight - margin * 2
    let doc := coloringPages.enum.foldl
      (fun d x =>
        let d1 := if x.1 > 0 then addPage d else d
        addImage { src := x.2, x := margin, y := margin, w := imgWidth, h := imgHeight } d1)
      doc
    some (doc, sanitize s.themeInputValue ++ "_coloring_book.pdf")

/-- The placement every exported image receives: 10mm margin on all sides,
stretched to 190mm x 277mm regardless of the image's own proportions. -/
def pdfPlacement (src : String) : PdfPlacement :=
  { src := src, x := 10, y := 10, w := a4WidthMm - 20, h := a4HeightMm - 20 }

/-- The batch start offsets the loop visits: `i, i+4, i+8, ...` while
below `pagesToGenerate`. -/
def batchStarts (pagesToGenerate i : Nat) : List Nat :=
  if _h : i < pagesToGenerate then i :: batchStarts pagesToGenerate (i + 4) else []
termination_by pagesToGenerate - i
decreasing_by omega

/-- The pages the batch loop appends when every remaining call succeeds:
for the batch at offset `i` served by call `c`, the returned images in
order at page indices `i + 1, i + 2, ...`. -/
def pagesFrom (bimgs : Nat → List String) (tv : String) (pagesToGenerate i c : Nat) :
    List GeneratedPage :=
  if _h : i < pagesToGenerate then
    (bimgs c).enum.map (fun x => mkPage tv (i + x.1 + 1) x.2) ++
      pagesFrom bimgs tv pagesToGenerate (i + 4) (c + 1)
  else []
termination_by pagesToGenerate - i
decreasing_by omega

/-- The pages appended by the first `f` batches only (used for runs that
fail at batch `f`). -/
def pagesUpTo (bimgs : Nat → List String) (tv : String) : Nat → Nat → Nat → List GeneratedPage
  | 0, _, _ => []
  | f + 1, i, c =>
    (bimgs c).enum.map (fun x => mkPage tv (i + x.1 + 1) x.2) ++
      pagesUpTo bimgs tv f (i + 4) (c + 1)

/-- The cover gallery entry for theme input `tv` and cover payload `img`. -/
def coverPage (tv img : String) : GeneratedPage :=
  { index := 0, imageUrl := mkImageUrl img, isCover := true,
    downloadName := pageDownloadName tv 0 true }

/-- Folding `displayImage` over an indexed image list appends exactly the
corresponding `mkPage` records and changes nothing else. -/
theorem foldDisplay_eq (i : Nat) (ps : List (Nat × String)) :
    ∀ s : AppState,
      ps.foldl (fun acc x => displayImage (mkImageUrl x.2) (i + x.1 + 1) false acc) s
        = { s with gallery := s.gallery ++
              ps.map (fun x => mkPage s.themeInputValue (i + x.1 + 1) x.2) } := by
  induction ps with
  | nil => intro s; cases s; simp
  | cons p ps ih =>
    intro s
    simp only [List.foldl_cons, List.map_cons]
    rw [ih]
    cases s
    simp [displayImage, mkPage]

/-- The batch loop does nothing once the offset reaches `pagesToGenerate`. -/
theorem batchLoop_stop (theme : String) {p i : Nat} (c : Nat) (svc : Service)
    (s : AppState) (h : ¬ i < p) :
    batchLoop theme p i c svc s = (s, none, []) := by
  unfold batchLoop
  simp [h]

/-- One unfolding of the batch loop when the service call throws. -/
theorem batchLoop_step_err (theme : String) {p i c : Nat} {svc : Service} {e : String}
    (s : AppState) (h : i < p) (herr : svc c = Except.error e) :
    batchLoop theme p i c svc s =
      (setLoading true (progressMessage i (min 4 (p - i))) s, some e,
       [batchRequest theme (min 4 (p - i))]) := by
  unfold batchLoop
  simp [h, herr]

/-- One unfolding of the batch loop when the service returns no images. -/
theorem batchLoop_step_empty (theme : String) {p i c : Nat} {svc : Service}
    (s : AppState) (h : i < p) (hok : svc c = Except.ok []) :
    batchLoop theme p i c svc s =
      (setLoading true (progressMessage i (min 4 (p - i))) s, some (batchFailMessage i),
       [batchRequest theme (min 4 (p - i))]) := by
  unfold batchLoop
  simp [h, hok]

/-- One unfolding of the batch loop when the service returns a non-empty
image list: the images are rendered and the loop continues at `i + 4`. -/
theorem batchLoop_step_ok (theme : String) {p i c : Nat} {svc : Service}
    {imgs : List String} (s : AppState) (h : i < p)
    (hok : svc c = Except.ok imgs) (hpos : 0 < imgs.length) :
    batchLoop theme p i c svc s =
      (let s1 := setLoading true (progressMessage i (min 4 (p - i))) s
       let s2 := { s1 with gallery := s1.gallery ++
                     imgs.enum.map (fun x => mkPage s.themeInputValue (i + x.1 + 1) x.2) }
       let r := batchLoop theme p (i + 4) (c + 1) svc s2
       (r.1, r.2.1, batchRequest theme (min 4 (p - i)) :: r.2.2)) := by
  conv_lhs => unfold batchLoop
  simp only [dif_pos h, hok]
  rw [if_pos hpos, foldDisplay_eq]
  simp [setLoading]

/-- `batchStarts` below the bound. -/
theorem batchStarts_step {p i : Nat} (h : i < p) :
    batchStarts p i = i :: batchStarts p (i + 4) := by
  conv_lhs => unfold batchStarts
  rw [dif_pos h]

/-- `batchStarts` at or beyond the bound. -/
theorem batchStarts_stop {p i : Nat} (h : ¬ i < p) : batchStarts p i = [] := by
  unfold batchStarts
  simp [h]

/-- `pagesFrom` below the bound. -/
theorem pagesFrom_step (bimgs : Nat → List String) (tv : String) {p i : Nat} (c : Nat)
    (h : i < p) :
    pagesFrom bimgs tv p i c =
      (bimgs c).enum.map (fun x => mkPage tv (i + x.1 + 1) x.2) ++
        pagesFrom bimgs tv p (i + 4) (c + 1) := by
  conv_lhs => unfold pagesFrom
  rw [dif_pos h]

/-- `pagesFrom` at or beyond the bound. -/
theorem pagesFrom_stop (bimgs : Nat → List String) (tv : String) {p i : Nat} (c : Nat)
    (h : ¬ i < p) : pagesFrom bimgs tv p i c = [] := by
  unfold pagesFrom
  simp [h]

/-- Master lemma for a batch loop in which every remaining call succeeds
with a non-empty image list: it exits normally, issues one request of size
`min 4 (remaining)` per batch start, appends exactly the pages of
`pagesFrom`, and leaves the theme input, download controls and error
visibility untouched. -/
theorem batchLoop_ok (theme : String) (p : Nat) (svc : Service) (bimgs : Nat → List String) :
    ∀ (n i c : Nat) (s : AppState), p ≤ i + 4 * n →
      (∀ t, i + 4 * t < p → svc (c + t) = Except.ok (bimgs (c + t)) ∧ bimgs (c + t) ≠ []) →
      (batchLoop theme p i c svc s).2.1 = none ∧
      (batchLoop theme p i c svc s).2.2
        = (batchStarts p i).map (fun st => batchRequest theme (min 4 (p - st))) ∧
      (batchLoop theme p i c svc s).1.gallery
        = s.gallery ++ pagesFrom bimgs s.themeInputValue p i c ∧
      (batchLoop theme p i c svc s).1.themeInputValue = s.themeInputValue ∧
      (batchLoop theme p i c svc s).1.downloadControlsHidden = s.downloadControlsHidden ∧
      (batchLoop theme p i c svc s).1.errorHidden = s.errorHidden := by
  intro n
  induction n with
  | zero =>
    intro i c s hb _
    have h : ¬ i < p := by omega
    rw [batchLoop_stop theme c svc s h, batchStarts_stop h, pagesFrom_stop bimgs _ c h]
    simp
  | succ n ih =>
    intro i c s hb hsvc
    by_cases h : i < p
    · have h0 := hsvc 0 (by omega)
      rw [Nat.add_zero] at h0
      obtain ⟨h0, h0ne⟩ := h0
      have hpos : 0 < (bimgs c).length := List.length_pos.mpr h0ne
      rw [batchLoop_step_ok theme s h h0 hpos]
      simp only []
      set s2 : AppState :=
        { setLoading true (progressMessage i (min 4 (p - i))) s with
          gallery := (setLoading true (progressMessage i (min 4 (p - i))) s).gallery ++
            (bimgs c).enum.map (fun x => mkPage s.themeInputValue (i + x.1 + 1) x.2) } with hs2
      have hs2tv : s2.themeInputValue = s.themeInputValue := by rw [hs2]; simp [setLoading]
      have hs2g : s2.gallery = s.gallery ++
          (bimgs c).enum.map (fun x => mkPage s.themeInputValue (i + x.1 + 1) x.2) := by
        rw [hs2]; simp [setLoading]
      have hs2d : s2.downloadControlsHidden = s.downloadControlsHidden := by
        rw [hs2]; simp [setLoading]
      have hs2e : s2.errorHidden = s.errorHidden := by rw [hs2]; simp [setLoading]
      have hrec := ih (i + 4) (c + 1) s2 (by omega) (fun t ht => by
        have := hsvc (t + 1) (by omega)
        rwa [show c + (t + 1) = c + 1 + t by omega] at this)
      obtain ⟨he, hr, hg, htv, hd, herr⟩ := hrec
      refine ⟨he, ?_, ?_, ?_, ?_, ?_⟩
      · rw [hr, batchStarts_step h, List.map_cons]
      · rw [hg, hs2g, hs2tv, pagesFrom_step bimgs _ c h, List.append_assoc]
      · rw [htv, hs2tv]
      · rw [hd, hs2d]
      · rw [herr, hs2e]
    · rw [batchLoop_stop theme c svc s h, batchStarts_stop h, pagesFrom_stop bimgs _ c h]
      simp

/-- The batch starts are `0*4, 1*4, ...` shifted by `i`, one per batch,
with exactly `ceil((p - i)/4)` of them. -/
theorem batchStarts_eq_range (p : Nat) :
    ∀ n i, p ≤ i + 4 * n →
      batchStarts p i = (List.range ((p - i + 3) / 4)).map (fun t => i + 4 * t) := by
  intro n
  induction n with
  | zero =>
    intro i hb
    have h : ¬ i < p := by omega
    rw [batchStarts_stop h, show (p - i + 3) / 4 = 0 by omega]
    simp
  | succ n ih =>
    intro i hb
    by_cases h : i < p
    · rw [batchStarts_step h, ih (i + 4) (by omega),
        show (p - i + 3) / 4 = (p - (i + 4) + 3) / 4 + 1 by omega,
        List.range_succ_eq_map, List.map_cons, List.map_map]
      congr 1
      exact List.map_congr_left (fun a _ => by simp [Function.comp]; omega)
    · rw [batchStarts_stop h, show (p - i + 3) / 4 = 0 by omega]
      simp

/-- Total number of pages appended over all batches: the sum of the
returned image counts, batch by batch. -/
theorem pagesFrom_length (bimgs : Nat → List String) (tv : String) (p : Nat) :
    ∀ n i c, p ≤ i + 4 * n →
      (pagesFrom bimgs tv p i c).length =
        ((List.range ((p - i + 3) / 4)).map (fun t => (bimgs (c + t)).length)).sum := by
  intro n
  induction n with
  | zero =>
    intro i c hb
    have h : ¬ i < p := by omega
    rw [pagesFrom_stop bimgs tv c h, show (p - i + 3) / 4 = 0 by omega]
    simp
  | succ n ih =>
    intro i c hb
    by_cases h : i < p
    · rw [pagesFrom_step bimgs tv c h,
        show (p - i + 3) / 4 = (p - (i + 4) + 3) / 4 + 1 by omega,
        List.range_succ_eq_map, List.map_cons, List.map_map, List.length_append,
        List.length_map, List.enum_length, List.sum_cons, ih (i + 4) (c + 1) (by omega)]
      congr 1
      congr 1
      exact List.map_congr_left (fun a _ => by
        simp only [Function.comp_apply]
        exact congrArg (fun m => (bimgs m).length) (by omega))
    · rw [pagesFrom_stop bimgs tv c h, show (p - i + 3) / 4 = 0 by omega]
      simp

/-- When every batch returns exactly the requested number of images, the
page indices appended by the loop are exactly `i+1, i+2, ..., p`. -/
theorem pagesFrom_indices (bimgs : Nat → List String) (tv : String) (p : Nat) :
    ∀ n i c, p ≤ i + 4 * n →
      (∀ t, i + 4 * t < p → (bimgs (c + t)).length = min 4 (p - (i + 4 * t))) →
      (pagesFrom bimgs tv p i c).map GeneratedPage.index = List.range' (i + 1) (p - i) := by
  intro n
  induction n with
  | zero =>
    intro i c hb _
    have h : ¬ i < p := by omega
    rw [pagesFrom_stop bimgs tv c h, show p - i = 0 by omega]
    simp
  | succ n ih =>
    intro i c hb hexact
    by_cases h : i < p
    · have hlen : (bimgs c).length = min 4 (p - i) := by
        have := hexact 0 (by omega)
        simpa using this
      rw [pagesFrom_step bimgs tv c h, List.map_append, List.map_map,
        ih (i + 4) (c + 1) (by omega) (fun t ht => by
          have := hexact (t + 1) (by omega)
          rw [show c + (t + 1) = c + 1 + t by omega,
            show i + 4 * (t + 1) = i + 4 + 4 * t by omega] at this
          exact this)]
      have hfst : (bimgs c).enum.map (GeneratedPage.index ∘ fun x => mkPage tv (i + x.1 + 1) x.2)
          = List.range' (i + 1) (bimgs c).length := by
        have h1 : (GeneratedPage.index ∘ fun x : Nat × String => mkPage tv (i + x.1 + 1) x.2)
            = (fun t => i + t + 1) ∘ Prod.fst := by
          funext x
          simp [mkPage]
        rw [h1, ← List.map_map, List.enum_map_fst, List.range'_eq_map_range]
        exact List.map_congr_left (fun a _ => by omega)
      rw [hfst, hlen]
      by_cases hd : p - i ≤ 4
      · rw [show min 4 (p - i) = p - i by omega, show p - (i + 4) = 0 by omega]
        simp
      · rw [show min 4 (p - i) = 4 by omega]
        have happ := List.range'_append (i + 1) 4 (p - (i + 4)) 1
        simp only [Nat.one_mul] at happ
        rw [show i + 4 + 1 = i + 1 + 4 by omega, happ,
          show p - (i + 4) + 4 = p - i by omega]
    · rw [pagesFrom_stop bimgs tv c h, show p - i = 0 by omega]
      simp

/-- Master lemma for a batch loop whose first `f` calls succeed with
non-empty lists and whose call `f` returns an empty list: the loop throws
the batch failure for offset `i + 4*f`, issues exactly the first `f + 1`
batch requests and no later one, appends exactly the pages of the first
`f` batches, and leaves theme input and download controls untouched. -/
theorem batchLoop_fail (theme : String) (p : Nat) (svc : Service) (bimgs : Nat → List String) :
    ∀ (f i c : Nat) (s : AppState),
      (∀ t, t < f → svc (c + t) = Except.ok (bimgs (c + t)) ∧ bimgs (c + t) ≠ []) →
      i + 4 * f < p →
      svc (c + f) = Except.ok [] →
      (batchLoop theme p i c svc s).2.1 = some (batchFailMessage (i + 4 * f)) ∧
      (batchLoop theme p i c svc s).2.2
        = (List.range (f + 1)).map (fun t => batchRequest theme (min 4 (p - (i + 4 * t)))) ∧
      (batchLoop theme p i c svc s).1.gallery
        = s.gallery ++ pagesUpTo bimgs s.themeInputValue f i c ∧
      (batchLoop theme p i c svc s).1.themeInputValue = s.themeInputValue ∧
      (batchLoop theme p i c svc s).1.downloadControlsHidden = s.downloadControlsHidden := by
  intro f
  induction f with
  | zero =>
    intro i c s _ hlt hfail
    rw [Nat.add_zero] at hfail
    rw [Nat.mul_zero, Nat.add_zero] at hlt
    rw [batchLoop_step_empty theme s hlt hfail]
    refine ⟨by simp, ?_, ?_, by simp [setLoading], by simp [setLoading]⟩
    · simp [List.range_succ]
    · simp [setLoading, pagesUpTo]
  | succ f ih =>
    intro i c s hpre hlt hfail
    have h : i < p := by omega
    have h0 := hpre 0 (by omega)
    rw [Nat.add_zero] at h0
    obtain ⟨h0, h0ne⟩ := h0
    have hpos : 0 < (bimgs c).length := List.length_pos.mpr h0ne
    rw [batchLoop_step_ok theme s h h0 hpos]
    simp only []
    set s2 : AppState :=
      { setLoading true (progressMessage i (min 4 (p - i))) s with
        gallery := (setLoading true (progressMessage i (min 4 (p - i))) s).gallery ++
          (bimgs c).enum.map (fun x => mkPage s.themeInputValue (i + x.1 + 1) x.2) } with hs2
    have hs2tv : s2.themeInputValue = s.themeInputValue := by rw [hs2]; simp [setLoading]
    have hs2g : s2.gallery = s.gallery ++
        (bimgs c).enum.map (fun x => mkPage s.themeInputValue (i + x.1 + 1) x.2) := by
      rw [hs2]; simp [setLoading]
    have hs2d : s2.downloadControlsHidden = s.downloadControlsHidden := by
      rw [hs2]; simp [setLoading]
    have hrec := ih (i + 4) (c + 1) s2
      (fun t ht => by
        have := hpre (t + 1) (by omega)
        rwa [show c + (t + 1) = c + 1 + t by omega] at this)
      (by omega)
      (by rwa [show c + 1 + f = c + (f + 1) by omega])
    obtain ⟨he, hr, hg, htv, hd⟩ := hrec
    refine ⟨?_, ?_, ?_, ?_, ?_⟩
    · rw [he, show i + 4 + 4 * f = i + 4 * (f + 1) by omega]
    · rw [hr]
      conv_rhs => rw [List.range_succ_eq_map, List.map_cons, List.map_map]
      congr 1
      exact List.map_congr_left (fun a _ => by
        simp only [Function.comp_apply]
        exact congrArg (fun m => batchRequest theme (min 4 (p - m))) (by omega))
    · rw [hg, hs2g, hs2tv, List.append_assoc]
      congr 1
    · rw [htv, hs2tv]
    · rw [hd, hs2d]

/-- The state just before the cover call: busy, gallery cleared, error and
download controls hidden, placeholder hidden. -/
def preState (s0 : AppState) : AppState :=
  setLoading true "Creating cover..."
    { clearGallery (setLoading true "Starting..." s0) with galleryPlaceholderHidden := true }

/-- The state just after the cover image is rendered. -/
def coverState (cimgs : List String) (s0 : AppState) : AppState :=
  displayImage (mkImageUrl cimgs.headI) 0 true (preState s0)

/-- Unfolding of a run whose cover call returns a non-empty list: the run
continues into the batch loop and finishes through catch/finally. -/
theorem generate_cover_ok (theme : String) (numPages : Nat) (svc : Service) (s0 : AppState)
    {cimgs : List String} (hc : svc 0 = Except.ok cimgs) (hpos : 0 < cimgs.length) :
    generateColoringBook theme numPages svc s0 =
      (let r := batchLoop theme (numPages - 1) 0 1 svc (coverState cimgs s0)
       (setLoading false "Create Book"
         (match r.2.1 with
          | some _ => displayError genericError r.1
          | none => { r.1 with downloadControlsHidden := false }),
        coverRequest theme :: r.2.2)) := by
  simp only [generateColoringBook, coverState, preState]
  rw [hc]
  simp only [if_pos hpos]
  cases h21 : (batchLoop theme (numPages - 1) 0 1 svc
      (displayImage (mkImageUrl cimgs.headI) 0 true
        (setLoading true "Creating cover..."
          { clearGallery (setLoading true "Starting..." s0) with
            galleryPlaceholderHidden := true }))).2.1 with
  | none => simp [h21]
  | some e => simp [h21]

/-- Unfolding of a run whose cover call returns no images: the run fails
before the batch loop, with the cover request the only request issued. -/
theorem generate_cover_empty (theme : String) (numPages : Nat) (svc : Service) (s0 : AppState)
    (hc : svc 0 = Except.ok []) :
    generateColoringBook theme numPages svc s0 =
      (setLoading false "Create Book" (displayError genericError (preState s0)),
       [coverRequest theme]) := by
  simp only [generateColoringBook, preState]
  rw [hc]
  simp

/-- Every character produced by the whitespace-collapsing pass is
non-whitespace: runs become `_` and other characters pass through. -/
theorem replWsAux_no_ws : ∀ (b : Bool) (l : List Char),
    ∀ c ∈ replWsAux b l, c.isWhitespace = false := by
  intro b l
  induction l generalizing b with
  | nil => intro c hc; simp [replWsAux] at hc
  | cons a as ih =>
    intro c hc
    by_cases ha : a.isWhitespace
    · simp only [replWsAux, if_pos ha] at hc
      rcases List.mem_append.mp hc with h1 | h2
      · by_cases hb : b
        · simp [hb] at h1
        · simp [hb] at h1
          subst h1
          decide
      · exact ih true c h2
    · simp only [replWsAux, if_neg ha, List.mem_cons] at hc
      rcases hc with h1 | h2
      · subst h1
        simpa using ha
      · exact ih false c h2

/-- `dropWhile isWhitespace` is the identity on whitespace-free lists. -/
theorem dropWhile_ws_eq_self {l : List Char}
    (h : ∀ c ∈ l, c.isWhitespace = false) :
    l.dropWhile Char.isWhitespace = l := by
  cases l with
  | nil => rfl
  | cons a as =>
    have := h a (List.mem_cons_self a as)
    simp [List.dropWhile_cons, this]

/-- Trimming is the identity on whitespace-free lists. -/
theorem jsTrimList_eq_self {l : List Char}
    (h : ∀ c ∈ l, c.isWhitespace = false) :
    jsTrimList l = l := by
  unfold jsTrimList
  rw [dropWhile_ws_eq_self h,
    dropWhile_ws_eq_self (fun c hc => h c (List.mem_reverse.mp hc)), List.reverse_reverse]

/-- Collapsing is the identity on whitespace-free lists. -/
theorem replWsAux_eq_self : ∀ {l : List Char},
    (∀ c ∈ l, c.isWhitespace = false) → replWsAux false l = l := by
  intro l
  induction l with
  | nil => intro _; rfl
  | cons a as ih =>
    intro h
    have ha := h a (List.mem_cons_self a as)
    simp only [replWsAux, ha, Bool.false_eq_true, if_false]
    rw [ih (fun c hc => h c (List.mem_cons_of_mem a hc))]

/-- `addPage` then `addImage` appends exactly one page holding exactly the
placed image. -/
theorem addPage_addImage (pl : PdfPlacement) (d : PdfDoc) :
    addImage pl (addPage d) = { pages := d.pages ++ [[pl]] } := by
  simp [addPage, addImage, List.dropLast_concat, List.getLast?_concat]

/-- Folding the export step over the images enumerated from a positive
index appends one single-image page per image. -/
theorem pdfFold_go (g : String → PdfPlacement) :
    ∀ (rest : List String) (n : Nat) (d : PdfDoc), 0 < n →
      (List.enumFrom n rest).foldl
          (fun dd x => addImage (g x.2) (if x.1 > 0 then addPage dd else dd)) d
        = { pages := d.pages ++ rest.map (fun u => [g u]) } := by
  intro rest
  induction rest with
  | nil =>
    intro n d _
    cases d
    simp [List.enumFrom]
  | cons u rest ih =>
    intro n d hn
    simp only [List.enumFrom, List.foldl_cons]
    rw [if_pos hn, addPage_addImage, ih (n + 1) _ (by omega)]
    simp

/-- Initial page state: idle form with a theme and page count typed in. -/
def initState : AppState :=
  { themeInputValue := "Dinosaurs", pagesInputValue := "5", isLoading := false,
    generateBtnDisabled := false, spinnerHidden := true, btnText := "Create Book",
    gallery := [], galleryPlaceholderHidden := false, errorHidden := true,
    errorText := "", downloadControlsHidden := true }

/-- The same state while a run is in flight. -/
def busyState : AppState :=
  { initState with isLoading := true, generateBtnDisabled := true, spinnerHidden := false }

/-- A state whose theme input is only whitespace. -/
def invalidState : AppState :=
  { initState with themeInputValue := "   " }

/-- A service that always answers with one image. -/
def svcAllOk : Service := fun _ => Except.ok ["imgbytes"]

/-- A service that always answers with an empty image list. -/
def svcAllEmpty : Service := fun _ => Except.ok []

/-- Claim C5: on every exit path of a run — success, generation failure, or
any exception thrown by a service call — the busy state (the `isLoading`
flag and the disabled submit button) is cleared by the `finally` clause. -/
theorem claim_C5 (theme : String) (numPages : Nat) (svc : Service) (s0 : AppState) :
    (generateColoringBook theme numPages svc s0).1.isLoading = false ∧
    (generateColoringBook theme numPages svc s0).1.generateBtnDisabled = false := by
  simp only [generateColoringBook]
  constructor <;> simp [setLoading]

/-- Claim C5 witness: a concrete run (here with a service that always
fails with an empty list) ends with the busy state cleared. -/
theorem claim_C5_witness :
    (generateColoringBook "Dinosaurs" 5 svcAllEmpty initState).1.isLoading = false ∧
    (generateColoringBook "Dinosaurs" 5 svcAllEmpty initState).1.generateBtnDisabled = false :=
  claim_C5 "Dinosaurs" 5 svcAllEmpty initState

/-- Claim C6: while a run is in flight (`isLoading` set) the submit
listener returns immediately — no service call is issued, no page is
added, the state is unchanged, so no second run ever starts. -/
theorem claim_C6 (svc : Service) (s : AppState) (h : s.isLoading = true) :
    handleSubmit svc s = (s, []) := by
  simp [handleSubmit, h]

/-- Claim C6 witness: submitting while the busy flag is set is a no-op. -/
theorem claim_C6_witness :
    busyState.isLoading = true ∧ handleSubmit svcAllOk busyState = (busyState, []) :=
  ⟨rfl, claim_C6 svcAllOk busyState rfl⟩

/-- Claim C7: sanitization trims the theme and collapses every internal
whitespace run to one underscore — so `" My   Theme "` becomes
`"My_Theme"` — and applying it twice equals applying it once. -/
theorem claim_C7 :
    sanitize " My   Theme " = "My_Theme" ∧
    ∀ s : String, sanitize (sanitize s) = sanitize s := by
  constructor
  · rfl
  · intro s
    have hnw := replWsAux_no_ws false (jsTrimList s.data)
    simp only [sanitize]
    rw [jsTrimList_eq_self hnw, replWsAux_eq_self hnw]

/-- Claim C9: a submission whose trimmed theme is empty, or whose page
count parses to a non-positive number, surfaces the validation error and
issues no request — no run is started and the state is only touched by
`displayError`. -/
theorem claim_C9 (svc : Service) (s : AppState) (hL : s.isLoading = false)
    (hbad : jsTrimStr s.themeInputValue = "" ∨
            (∀ k, jsParseInt s.pagesInputValue = some k → k ≤ 0)) :
    handleSubmit svc s = (displayError validationMessage s, []) := by
  cases hp : jsParseInt s.pagesInputValue with
  | none => simp [handleSubmit, hL, hp]
  | some k =>
    have hcond : ¬(jsTrimStr s.themeInputValue ≠ "" ∧ 0 < k) := by
      rcases hbad with h1 | h2
      · intro hc
        exact hc.1 h1
      · intro hc
        have := h2 k hp
        omega
    simp only [handleSubmit, hL, Bool.false_eq_true, if_false, hp]
    rw [if_neg hcond]

/-- Claim C9 witness: an all-whitespace theme is rejected with the
validation message and zero requests. -/
theorem claim_C9_witness :
    invalidState.isLoading = false ∧
    jsTrimStr invalidState.themeInputValue = "" ∧
    handleSubmit svcAllOk invalidState = (displayError validationMessage invalidState, []) :=
  ⟨rfl, by decide, claim_C9 svcAllOk invalidState rfl (Or.inl (by decide))⟩

/-- Claim C3: if the cover response is empty, the run fails before any
batch request — the trace is exactly the cover request — the generic error
is surfaced, the export controls remain hidden, and the busy state is
cleared. -/
theorem claim_C3 (theme : String) (numPages : Nat) (svc : Service) (s0 : AppState)
    (hc : svc 0 = Except.ok []) :
    (generateColoringBook theme numPages svc s0).2 = [coverRequest theme] ∧
    (generateColoringBook theme numPages svc s0).1.errorHidden = false ∧
    (generateColoringBook theme numPages svc s0).1.errorText = genericError ∧
    (generateColoringBook theme numPages svc s0).1.downloadControlsHidden = true ∧
    (generateColoringBook theme numPages svc s0).1.gallery = [] ∧
    (generateColoringBook theme numPages svc s0).1.isLoading = false := by
  rw [generate_cover_empty theme numPages svc s0 hc]
  refine ⟨rfl, ?_, ?_, ?_, ?_, ?_⟩ <;>
    simp [setLoading, displayError, preState, clearGallery]

/-- Claim C3 witness: a concrete run against the always-empty service. -/
theorem claim_C3_witness :
    svcAllEmpty 0 = Except.ok [] ∧
    (generateColoringBook "Dinosaurs" 5 svcAllEmpty initState).2
      = [coverRequest "Dinosaurs"] ∧
    (generateColoringBook "Dinosaurs" 5 svcAllEmpty initState).1.downloadControlsHidden
      = true :=
  ⟨rfl, (claim_C3 "Dinosaurs" 5 svcAllEmpty initState rfl).1,
    (claim_C3 "Dinosaurs" 5 svcAllEmpty initState rfl).2.2.2.1⟩

/-- Claim C8: document export with zero rendered non-cover images creates
no document (early return); otherwise it produces one page per non-cover
image in document order — first image on the initial page, each later
image after exactly one `addPage` — every image placed at the uniform 10mm
margin and stretched to the full remaining page area regardless of its own
proportions, saved under the sanitized theme name. -/
theorem claim_C8 (s : AppState) :
    downloadAsPdf s =
      (let imgs := (s.gallery.filter (fun p => !p.isCover)).map GeneratedPage.imageUrl
       if imgs.length = 0 then none
       else some ({ pages := imgs.map (fun u => [pdfPlacement u]) },
                  sanitize s.themeInputValue ++ "_coloring_book.pdf")) := by
  simp only [downloadAsPdf]
  by_cases h : ((s.gallery.filter (fun p => !p.isCover)).map GeneratedPage.imageUrl).length = 0
  · simp only [if_pos h]
  · simp only [if_neg h]
    obtain ⟨u, rest, hcons⟩ : ∃ u rest,
        (s.gallery.filter (fun p => !p.isCover)).map GeneratedPage.imageUrl = u :: rest := by
      cases hl : (s.gallery.filter (fun p => !p.isCover)).map GeneratedPage.imageUrl with
      | nil => rw [hl] at h; simp at h
      | cons a l => exact ⟨a, l, rfl⟩
    rw [hcons]
    congr 1
    congr 1
    rw [List.enum_cons]
    simp only [List.foldl_cons]
    exact (pdfFold_go
        (fun v => { src := v, x := 10, y := 10,
                    w := a4WidthMm - 10 * 2, h := a4HeightMm - 10 * 2 })
        rest 1 { pages := [[{ src := u, x := 10, y := 10,
                              w := a4WidthMm - 10 * 2, h := a4HeightMm - 10 * 2 }]] }
        Nat.one_pos).trans (by simp [pdfPlacement])

/-- Characterization of a run in which the cover call and every batch call
return non-empty image lists: the full trace is the cover request followed
by one request per batch start, the gallery is the cover page followed by
`pagesFrom`, the export controls are unhidden, no error is shown, and the
busy state is cleared. -/
theorem generate_run_ok (theme : String) (numPages : Nat) (svc : Service) (s0 : AppState)
    (cimgs : List String) (bimgs : Nat → List String)
    (hc : svc 0 = Except.ok cimgs) (hcne : cimgs ≠ [])
    (hb : ∀ t, 4 * t < numPages - 1 →
          svc (1 + t) = Except.ok (bimgs (1 + t)) ∧ bimgs (1 + t) ≠ []) :
    (generateColoringBook theme numPages svc s0).2
      = coverRequest theme ::
          (batchStarts (numPages - 1) 0).map
            (fun st => batchRequest theme (min 4 (numPages - 1 - st))) ∧
    (generateColoringBook theme numPages svc s0).1.gallery
      = coverPage s0.themeInputValue cimgs.headI ::
          pagesFrom bimgs s0.themeInputValue (numPages - 1) 0 1 ∧
    (generateColoringBook theme numPages svc s0).1.downloadControlsHidden = false ∧
    (generateColoringBook theme numPages svc s0).1.errorHidden = true ∧
    (generateColoringBook theme numPages svc s0).1.isLoading = false := by
  have hpos : 0 < cimgs.length := List.length_pos.mpr hcne
  rw [generate_cover_ok theme numPages svc s0 hc hpos]
  have hbl := batchLoop_ok theme (numPages - 1) svc bimgs (numPages - 1) 0 1
      (coverState cimgs s0) (by omega) (fun t ht => hb t (by omega))
  obtain ⟨he, hr, hg, htv, hd, herr⟩ := hbl
  have hcsg : (coverState cimgs s0).gallery = [coverPage s0.themeInputValue cimgs.headI] := by
    simp [coverState, preState, displayImage, clearGallery, setLoading, coverPage]
  have hcst : (coverState cimgs s0).themeInputValue = s0.themeInputValue := by
    simp [coverState, preState, displayImage, clearGallery, setLoading]
  have hcse : (coverState cimgs s0).errorHidden = true := by
    simp [coverState, preState, displayImage, clearGallery, setLoading]
  simp only [he]
  refine ⟨by rw [hr], ?_, ?_, ?_, ?_⟩
  · simp only [setLoading]
    rw [hg, hcsg, hcst]
    rfl
  · simp [setLoading]
  · simp only [setLoading]
    rw [herr, hcse]
  · simp [setLoading]

/-- A service returning exactly the requested counts for a 5-page book:
one cover image, then one batch of four pages. -/
def svcExact5 : Service := fun k =>
  if k = 0 then Except.ok ["c"] else Except.ok ["p1", "p2", "p3", "p4"]

/-- A service whose cover succeeds but whose every batch over-returns two
images. -/
def svcOver : Service := fun k =>
  if k = 0 then Except.ok ["c"] else Except.ok ["a", "b"]

/-- A service whose cover and first batch succeed with one image each and
whose second batch returns an empty list. -/
def svcFailSecond : Service := fun k =>
  if k ≤ 1 then Except.ok ["a"] else Except.ok []

/-- Claim C2: a run whose calls all succeed issues exactly one cover
request followed by exactly `ceil((pageCount-1)/4)` batch requests, the
t-th batch (start offset `4t`) requesting `min 4 (pagesToGenerate - 4t)`
images. -/
theorem claim_C2 (theme : String) (numPages : Nat) (svc : Service) (s0 : AppState)
    (cimgs : List String) (bimgs : Nat → List String)
    (_hp : 0 < numPages)
    (hc : svc 0 = Except.ok cimgs) (hcne : cimgs ≠ [])
    (hb : ∀ t, 4 * t < numPages - 1 →
          svc (1 + t) = Except.ok (bimgs (1 + t)) ∧ bimgs (1 + t) ≠ []) :
    (generateColoringBook theme numPages svc s0).2
      = coverRequest theme ::
          (List.range ((numPages - 1 + 3) / 4)).map
            (fun t => batchRequest theme (min 4 (numPages - 1 - 4 * t))) := by
  have h1 := (generate_run_ok theme numPages svc s0 cimgs bimgs hc hcne hb).1
  rw [h1, batchStarts_eq_range (numPages - 1) (numPages - 1) 0 (by omega), List.map_map,
    Nat.sub_zero]
  congr 1
  exact List.map_congr_left (fun a _ => by
    simp only [Function.comp_apply]
    exact congrArg (fun m => batchRequest theme (min 4 (numPages - 1 - m))) (by omega))

/-- Claim C2 witness: pageCount 9 yields a cover call plus batches of
sizes 4 and 4. -/
theorem claim_C2_witness :
    (generateColoringBook "Space" 9 svcAllOk initState).2
      = coverRequest "Space" :: [batchRequest "Space" 4, batchRequest "Space" 4] := by
  have h := claim_C2 "Space" 9 svcAllOk initState ["imgbytes"] (fun _ => ["imgbytes"])
      (by decide) rfl (by simp) (fun t _ => by exact ⟨rfl, by simp⟩)
  rw [h]
  rfl

/-- Claim C10: the orchestrator never checks a batch's returned count
against the requested count — any run whose responses are all non-empty
succeeds (export controls unhidden), and the resulting page total is one
(the cover) plus the sum of the counts each batch actually returned. -/
theorem claim_C10 (theme : String) (numPages : Nat) (svc : Service) (s0 : AppState)
    (cimgs : List String) (bimgs : Nat → List String)
    (hc : svc 0 = Except.ok cimgs) (hcne : cimgs ≠ [])
    (hb : ∀ t, 4 * t < numPages - 1 →
          svc (1 + t) = Except.ok (bimgs (1 + t)) ∧ bimgs (1 + t) ≠ []) :
    (generateColoringBook theme numPages svc s0).1.downloadControlsHidden = false ∧
    (generateColoringBook theme numPages svc s0).1.gallery.length
      = 1 + ((List.range ((numPages - 1 + 3) / 4)).map
               (fun t => (bimgs (1 + t)).length)).sum := by
  obtain ⟨-, hg, hd, -, -⟩ := generate_run_ok theme numPages svc s0 cimgs bimgs hc hcne hb
  refine ⟨hd, ?_⟩
  rw [hg]
  simp only [List.length_cons]
  rw [pagesFrom_length bimgs s0.themeInputValue (numPages - 1) (numPages - 1) 0 1 (by omega),
    Nat.sub_zero]
  omega

/-- Claim C10 witness: with every batch answering two images, a 9-page
request succeeds with 1 + 2 + 2 = 5 rendered pages, not 9. -/
theorem claim_C10_witness :
    (generateColoringBook "Space" 9 svcOver initState).1.downloadControlsHidden = false ∧
    (generateColoringBook "Space" 9 svcOver initState).1.gallery.length = 5 := by
  have h := claim_C10 "Space" 9 svcOver initState ["c"] (fun _ => ["a", "b"])
      rfl (by simp) (fun t _ => by
        constructor
        · show svcOver (1 + t) = Except.ok ["a", "b"]
          unfold svcOver
          rw [if_neg (by omega)]
        · simp)
  exact ⟨h.1, by rw [h.2]; rfl⟩

/-- Claim C1 (amended): when the cover response has exactly one image and
every batch response has exactly the requested number of images, a
completed run renders exactly `pageCount` pages with indices exactly
`0 .. pageCount - 1` (no duplicates), the entry at index 0 is the cover,
and the export controls are enabled. -/
theorem claim_C1 (theme : String) (numPages : Nat) (svc : Service) (s0 : AppState)
    (cimgs : List String) (bimgs : Nat → List String)
    (hp : 0 < numPages)
    (hc : svc 0 = Except.ok cimgs) (hclen : cimgs.length = 1)
    (hb : ∀ t, 4 * t < numPages - 1 →
          svc (1 + t) = Except.ok (bimgs (1 + t)) ∧
          (bimgs (1 + t)).length = min 4 (numPages - 1 - 4 * t)) :
    (generateColoringBook theme numPages svc s0).1.gallery.length = numPages ∧
    (generateColoringBook theme numPages svc s0).1.gallery.map GeneratedPage.index
      = List.range numPages ∧
    ((generateColoringBook theme numPages svc s0).1.gallery.map GeneratedPage.index).Nodup ∧
    (generateColoringBook theme numPages svc s0).1.gallery.headI.index = 0 ∧
    (generateColoringBook theme numPages svc s0).1.gallery.headI.isCover = true ∧
    (generateColoringBook theme numPages svc s0).1.downloadControlsHidden = false := by
  have hcne : cimgs ≠ [] := by
    intro hh
    rw [hh] at hclen
    simp at hclen
  have hb' : ∀ t, 4 * t < numPages - 1 →
      svc (1 + t) = Except.ok (bimgs (1 + t)) ∧ bimgs (1 + t) ≠ [] := by
    intro t ht
    obtain ⟨h1, h2⟩ := hb t ht
    refine ⟨h1, ?_⟩
    intro hh
    rw [hh] at h2
    simp only [List.length_nil] at h2
    omega
  obtain ⟨-, hg, hd, -, -⟩ := generate_run_ok theme numPages svc s0 cimgs bimgs hc hcne hb'
  have hidx := pagesFrom_indices bimgs s0.themeInputValue (numPages - 1) (numPages - 1) 0 1
      (by omega) (fun t ht => by simpa using (hb t (by simpa using ht)).2)
  rw [Nat.sub_zero] at hidx
  have hmap : (generateColoringBook theme numPages svc s0).1.gallery.map GeneratedPage.index
      = List.range numPages := by
    rw [hg, List.map_cons, hidx]
    have h0 : (coverPage s0.themeInputValue cimgs.headI).index = 0 := rfl
    rw [h0]
    conv_rhs => rw [show numPages = (numPages - 1) + 1 by omega, List.range_eq_range',
      List.range'_succ]
  refine ⟨?_, hmap, ?_, ?_, ?_, hd⟩
  · have := congrArg List.length hmap
    simpa using this
  · rw [hmap]
    exact List.nodup_range numPages
  · rw [hg]
    rfl
  · rw [hg]
    rfl

/-- Claim C1 witness: a 5-page request against a service returning exactly
the requested counts yields 5 pages with indices 0 through 4. -/
theorem claim_C1_witness :
    (generateColoringBook "Dinosaurs" 5 svcExact5 initState).1.gallery.length = 5 ∧
    (generateColoringBook "Dinosaurs" 5 svcExact5 initState).1.gallery.map
        GeneratedPage.index = [0, 1, 2, 3, 4] := by
  have h := claim_C1 "Dinosaurs" 5 svcExact5 initState ["c"] (fun _ => ["p1", "p2", "p3", "p4"])
      (by decide) rfl (by decide) (fun t ht => by
        have ht0 : t = 0 := by omega
        subst ht0
        exact ⟨rfl, by decide⟩)
  exact ⟨h.1, by rw [h.2.1]; rfl⟩

/-- Claim C1 counterexample: with pageCount 2 and a service whose single
batch over-returns two images, the run completes without failure (export
controls enabled, no error shown) yet renders 3 pages, not 2 — so the
exactly-pageCount property fails for a run that merely completes without
failure. -/
theorem claim_C1_cex :
    (generateColoringBook "T" 2 svcOver initState).1.downloadControlsHidden = false ∧
    (generateColoringBook "T" 2 svcOver initState).1.errorHidden = true ∧
    (generateColoringBook "T" 2 svcOver initState).1.gallery.length ≠ 2 := by
  obtain ⟨-, hg, hd, herr, -⟩ := generate_run_ok "T" 2 svcOver initState ["c"]
      (fun _ => ["a", "b"]) rfl (by simp) (fun t ht => by
        have ht0 : t = 0 := by omega
        subst ht0
        exact ⟨rfl, by simp⟩)
  refine ⟨hd, herr, ?_⟩
  rw [hg, pagesFrom_step (fun _ => ["a", "b"]) initState.themeInputValue 1 (by omega),
    pagesFrom_stop (fun _ => ["a", "b"]) initState.themeInputValue 2 (by omega)]
  simp

/-- Claim C4: if batch `f` (zero-based, start offset `4f`) returns an
empty list after `f` successful batches, the whole run aborts — the trace
stops at the failing batch request (none after it is issued), the cover
and the pages of the prior successful batches remain rendered, the error
is surfaced, the export controls stay hidden, and the busy state is
cleared. -/
theorem claim_C4 (theme : String) (numPages : Nat) (svc : Service) (s0 : AppState)
    (cimgs : List String) (bimgs : Nat → List String) (f : Nat)
    (hc : svc 0 = Except.ok cimgs) (hcne : cimgs ≠ [])
    (hpre : ∀ t, t < f → svc (1 + t) = Except.ok (bimgs (1 + t)) ∧ bimgs (1 + t) ≠ [])
    (hlt : 4 * f < numPages - 1)
    (hfail : svc (1 + f) = Except.ok []) :
    (generateColoringBook theme numPages svc s0).2
      = coverRequest theme ::
          (List.range (f + 1)).map
            (fun t => batchRequest theme (min 4 (numPages - 1 - 4 * t))) ∧
    (generateColoringBook theme numPages svc s0).1.gallery
      = coverPage s0.themeInputValue cimgs.headI ::
          pagesUpTo bimgs s0.themeInputValue f 0 1 ∧
    (generateColoringBook theme numPages svc s0).1.errorHidden = false ∧
    (generateColoringBook theme numPages svc s0).1.errorText = genericError ∧
    (generateColoringBook theme numPages svc s0).1.downloadControlsHidden = true ∧
    (generateColoringBook theme numPages svc s0).1.isLoading = false := by
  have hpos : 0 < cimgs.length := List.length_pos.mpr hcne
  rw [generate_cover_ok theme numPages svc s0 hc hpos]
  have hbl := batchLoop_fail theme (numPages - 1) svc bimgs f 0 1 (coverState cimgs s0)
      hpre (by omega) hfail
  obtain ⟨he, hr, hg, htv, hd⟩ := hbl
  have hcsg : (coverState cimgs s0).gallery = [coverPage s0.themeInputValue cimgs.headI] := by
    simp [coverState, preState, displayImage, clearGallery, setLoading, coverPage]
  have hcst : (coverState cimgs s0).themeInputValue = s0.themeInputValue := by
    simp [coverState, preState, displayImage, clearGallery, setLoading]
  have hcsd : (coverState cimgs s0).downloadControlsHidden = true := by
    simp [coverState, preState, displayImage, clearGallery, setLoading]
  simp only [he]
  refine ⟨?_, ?_, ?_, ?_, ?_, ?_⟩
  · rw [hr]
    congr 1
    exact List.map_congr_left (fun a _ => by
      exact congrArg (fun m => batchRequest theme (min 4 (numPages - 1 - m))) (by omega))
  · simp only [setLoading, displayError]
    rw [hg, hcsg, hcst]
    rfl
  · simp [setLoading, displayError]
  · simp [setLoading, displayError]
  · simp only [setLoading, displayError]
    rw [hd, hcsd]
  · simp [setLoading]

/-- Claim C4 witness: a 9-page run whose second batch fails issues the
cover call plus exactly two batch requests, keeps the cover and the first
batch's page rendered (indices 0 and 1), and leaves the export controls
hidden. -/
theorem claim_C4_witness :
    (generateColoringBook "Space" 9 svcFailSecond initState).2
      = coverRequest "Space" :: [batchRequest "Space" 4, batchRequest "Space" 4] ∧
    (generateColoringBook "Space" 9 svcFailSecond initState).1.gallery.map
        GeneratedPage.index = [0, 1] ∧
    (generateColoringBook "Space" 9 svcFailSecond initState).1.downloadControlsHidden
      = true := by
  have h := claim_C4 "Space" 9 svcFailSecond initState ["a"] (fun _ => ["a"]) 1
      rfl (by simp) (fun t ht => by
        have ht0 : t = 0 := by omega
        subst ht0
        exact ⟨rfl, by simp⟩)
      (by omega) (by rfl)
  refine ⟨?_, ?_, h.2.2.2.2.1⟩
  · rw [h.1]
    rfl
  · rw [h.2.1]
    rfl
